import Mathlib

/-!
Verification development for the funtable TinyDB-backed KV/KKV store
(`src/funtable/kv/tinydb_table.py` and `src/funtable/kv/interface.py`).

The Python code is shallowly embedded: dynamic Python values crossing the
public API become an inductive `PyVal`; a TinyDB table becomes a list of
documents; each method becomes a pure Lean function over an explicit state,
returning `Except StoreErr` where the Python raises.  Wall-clock time
(`time.time()` / `datetime.now()`) is passed in explicitly as a `Nat`.
-/

set_option autoImplicit false

namespace Funtable

/-- Model of the dynamic Python values that cross the store's API
(keys and values handed to `set`/`get`/`delete`). -/
inductive PyVal where
  | pyNone : PyVal
  | pyBool : Bool → PyVal
  | pyInt : Int → PyVal
  | pyStr : String → PyVal
  | pyList : List PyVal → PyVal
  | pyDict : List (String × PyVal) → PyVal
deriving Repr, Inhabited

/-- Python `isinstance(v, str)`. -/
def isPyStr : PyVal → Bool
  | .pyStr _ => true
  | _ => false

/-- Python `isinstance(v, dict)`. -/
def isPyDict : PyVal → Bool
  | .pyDict _ => true
  | _ => false

/-- Python `str(v)` for the values the store passes through it (key coercion
in `set`, and in the KKV query predicates). -/
def pyStrOf : PyVal → String
  | .pyNone => "None"
  | .pyBool b => if b then "True" else "False"
  | .pyInt n => toString n
  | .pyStr s => s
  | .pyList _ => "<list>"
  | .pyDict _ => "<dict>"

/-- Structural equality test on `PyVal`, modelling Python `==` as the store
uses it (dict-key lookup in the KV cache, and TinyDB query predicates). -/
def pyBeq : PyVal → PyVal → Bool
  | .pyNone, .pyNone => true
  | .pyBool a, .pyBool b => a == b
  | .pyInt a, .pyInt b => a == b
  | .pyStr a, .pyStr b => a == b
  | .pyList [], .pyList [] => true
  | .pyList (a :: as), .pyList (b :: bs) =>
      pyBeq a b && pyBeq (.pyList as) (.pyList bs)
  | .pyDict [], .pyDict [] => true
  | .pyDict ((ka, va) :: as), .pyDict ((kb, vb) :: bs) =>
      ka == kb && pyBeq va vb && pyBeq (.pyDict as) (.pyDict bs)
  | _, _ => false

/-- The error classes of `interface.py` (`StoreError` subclasses), carried
with their message. -/
inductive StoreErr where
  | storeKeyError : String → StoreErr
  | storeValueError : String → StoreErr
  | storeNotFoundError : String → StoreErr
  | tableExistsError : String → StoreErr
  | tableNameError : String → StoreErr
  | connectionError : String → StoreErr
deriving Repr, DecidableEq

/-! ## KV table (`TinyDBKVTable`)

A TinyDB table is a list of documents; a KV document is `{"key": k, "value": v}`
where `k` is always a string (`set` stores `str(key)`).  The instance state also
carries the in-memory cache `{key → (fetch_time, value)}`, keyed — as in the
source — by the *original* key object, not its `str()` coercion. -/

/-- A document of a KV table: `{"key": ..., "value": ...}`. -/
structure KVDoc where
  key : String
  value : PyVal
deriving Repr

/-- State of one `TinyDBKVTable` instance: the backing TinyDB table plus the
instance-local cache. -/
structure KVState where
  table : List KVDoc
  cache : List (PyVal × Nat × PyVal)
deriving Repr

/-- `self._cache_ttl = 300` (seconds). -/
def cacheTtl : Nat := 300

/-- Python `key in self._cache` / `self._cache[key]`: first entry whose key
compares `==` to `key`. -/
def cacheLookup (c : List (PyVal × Nat × PyVal)) (key : PyVal) : Option (Nat × PyVal) :=
  (c.find? fun e => pyBeq e.1 key).map Prod.snd

/-- Python `self._cache[key] = (t, v)`: replace any existing binding, else add. -/
def cacheInsert (c : List (PyVal × Nat × PyVal)) (key : PyVal) (tv : Nat × PyVal) :
    List (PyVal × Nat × PyVal) :=
  if c.any fun e => pyBeq e.1 key then
    c.map fun e => if pyBeq e.1 key then (key, tv) else e
  else
    c ++ [(key, tv)]

/-- Python `del self._cache[key]` (guarded by `key in self._cache`). -/
def cacheErase (c : List (PyVal × Nat × PyVal)) (key : PyVal) :
    List (PyVal × Nat × PyVal) :=
  c.filter fun e => !(pyBeq e.1 key)

/-- TinyDB `table.upsert({"key": k, "value": v}, query.key == k)`: update every
matching document, insert at the end when none matches. -/
def kvUpsert (docs : List KVDoc) (k : String) (v : PyVal) : List KVDoc :=
  if docs.any fun d => d.key == k then
    docs.map fun d => if d.key == k then ⟨k, v⟩ else d
  else
    docs ++ [⟨k, v⟩]

/-- TinyDB `table.get(query.key == key)`: first matching document.  The query
compares the stored string key with the key object handed to `get`/`delete`
(the source does not apply `str()` there). -/
def kvFindDoc (docs : List KVDoc) (key : PyVal) : Option KVDoc :=
  docs.find? fun d => pyBeq (.pyStr d.key) key

/-- `TinyDBKVTable._validate_key` (also `TinyDBKKVTable._validate_key`):
raise `KeyError` unless the argument is a `str`. -/
def validateKey (k : PyVal) : Except StoreErr Unit :=
  if isPyStr k then .ok () else .error (.storeKeyError "Key must be string type")

/-- `TinyDBKVTable._validate_value` (also `TinyDBKKVTable._validate_value`):
raise `StoreValueError` unless the argument is a `dict`. -/
def validateValue (v : PyVal) : Except StoreErr Unit :=
  if isPyDict v then .ok () else .error (.storeValueError "Value must be dict type")

/-- `TinyDBKVTable.set(key, value)` at time `now`.  Faithful to the source:
the key validation is applied to `str(key)` — i.e. to the already-coerced
string — and the upsert stores `str(key)` while the cache is keyed by the
original `key`. -/
def KVTable.set (s : KVState) (key value : PyVal) (now : Nat) : Except StoreErr KVState := do
  validateKey (.pyStr (pyStrOf key))
  validateValue value
  let table := kvUpsert s.table (pyStrOf key) value
  let cache := cacheInsert s.cache key (now, value)
  .ok ⟨table, cache⟩

/-- The database branch of `TinyDBKVTable.get`: query the engine, and populate
the cache on a hit. -/
def KVTable.getFromDb (s : KVState) (key : PyVal) (now : Nat) : KVState × Option PyVal :=
  match kvFindDoc s.table key with
  | some d => (⟨s.table, cacheInsert s.cache key (now, d.value)⟩, some d.value)
  | none => (s, none)

/-- `TinyDBKVTable.get(key)` at time `now`: cache hit within TTL, else evict
and fall through to the engine. -/
def KVTable.get (s : KVState) (key : PyVal) (now : Nat) : KVState × Option PyVal :=
  match cacheLookup s.cache key with
  | some (t, v) =>
      if now - t < cacheTtl then (s, some v)
      else KVTable.getFromDb ⟨s.table, cacheErase s.cache key⟩ key now
  | none => KVTable.getFromDb s key now

/-- `TinyDBKVTable.delete(key)`: evict the cache entry, remove every matching
document, return whether any document was removed. -/
def KVTable.delete (s : KVState) (key : PyVal) : KVState × Bool :=
  let cache := cacheErase s.cache key
  let table := s.table.filter fun d => !(pyBeq (.pyStr d.key) key)
  (⟨table, cache⟩, (s.table.filter fun d => pyBeq (.pyStr d.key) key).length != 0)

/-! ## KKV table (`TinyDBKKVTable`)

Documents are `{"key1": pkey, "key2": skey, "value": v}`; no cache.  Unlike the
KV table, the KKV query predicates apply `str()` to both keys everywhere. -/

/-- A document of a KKV table. -/
structure KKVDoc where
  key1 : String
  key2 : String
  value : PyVal
deriving Repr

/-- State of one `TinyDBKKVTable` instance: just the backing table. -/
structure KKVState where
  table : List KKVDoc
deriving Repr

/-- TinyDB `upsert({"key1":…, "key2":…, "value":…}, (key1 == p) & (key2 == s))`. -/
def kkvUpsert (docs : List KKVDoc) (p s : String) (v : PyVal) : List KKVDoc :=
  if docs.any fun d => d.key1 == p && d.key2 == s then
    docs.map fun d => if d.key1 == p && d.key2 == s then ⟨p, s, v⟩ else d
  else
    docs ++ [⟨p, s, v⟩]

/-- `TinyDBKKVTable.set(pkey, skey, value)`. -/
def KKVTable.set (st : KKVState) (pkey skey value : PyVal) : Except StoreErr KKVState := do
  validateKey (.pyStr (pyStrOf pkey))
  validateKey (.pyStr (pyStrOf skey))
  validateValue value
  .ok ⟨kkvUpsert st.table (pyStrOf pkey) (pyStrOf skey) value⟩

/-- `TinyDBKKVTable.get(pkey, skey)`: first document matching both string-coerced keys. -/
def KKVTable.get (st : KKVState) (pkey skey : PyVal) : Option PyVal :=
  (st.table.find? fun d => d.key1 == pyStrOf pkey && d.key2 == pyStrOf skey).map KKVDoc.value

/-- `TinyDBKKVTable.delete(pkey, skey)`. -/
def KKVTable.delete (st : KKVState) (pkey skey : PyVal) : KKVState × Bool :=
  (⟨st.table.filter fun d => !(d.key1 == pyStrOf pkey && d.key2 == pyStrOf skey)⟩,
    (st.table.filter fun d => d.key1 == pyStrOf pkey && d.key2 == pyStrOf skey).length != 0)

/-! ## Registry (`TinyDBStore`)

The registry keeps TableInfo records `{name, type, created_at, updated_at}` in
the reserved `_table_info` table of its metadata file, and one backing file per
user table under `db_dir`.  The filesystem is modelled as the set of paths that
exist; `TinyDB(path)` creates the file when missing and opens it otherwise. -/

/-- A `_table_info` document. -/
structure TableInfoDoc where
  name : String
  type : String
  created_at : Nat
  updated_at : Nat
deriving Repr, DecidableEq

/-- State of a `TinyDBStore`: base directory, the `_table_info` table, and the
set of filesystem paths that exist. -/
structure StoreState where
  dbDir : String
  tableInfo : List TableInfoDoc
  files : List String
deriving Repr, DecidableEq

/-- `TinyDBStore._get_db_path`: `os.path.join(db_dir, f"{table_name}.json")`. -/
def dbPath (s : StoreState) (name : String) : String :=
  s.dbDir ++ "/" ++ name ++ ".json"

/-- The regex `^[a-zA-Z][a-zA-Z0-9_]*$` character classes. -/
def isAsciiLetter (c : Char) : Bool :=
  ('a' ≤ c && c ≤ 'z') || ('A' ≤ c && c ≤ 'Z')

def isTableNameChar (c : Char) : Bool :=
  isAsciiLetter c || ('0' ≤ c && c ≤ '9') || c == '_'

/-- The tail of `re.match(r"[a-zA-Z0-9_]*$", ...)`: every character in the
name class — where, as in Python's `re`, `$` matches at the end of the string
or just before one newline at the end of the string, so a single final `'\n'`
is also accepted. -/
def tableNameRest : List Char → Bool
  | [] => true
  | ['\n'] => true
  | c :: cs => isTableNameChar c && tableNameRest cs

/-- `self._table_name_pattern.match(table_name)` with the pattern
`^[a-zA-Z][a-zA-Z0-9_]*$`: nonempty, starts with a letter, remaining
characters letters/digits/underscore — optionally followed by one trailing
newline, which Python's `$` tolerates. -/
def validTableName (name : String) : Bool :=
  match name.data with
  | [] => false
  | c :: cs => isAsciiLetter c && tableNameRest cs

/-- `TinyDBStore._validate_table_name`: raise `StoreValueError` when the name
fails the pattern.  (The source also rejects non-`str` arguments with the same
error class; names are strings here.) -/
def validateTableName (name : String) : Except StoreErr Unit :=
  if validTableName name then .ok ()
  else .error (.storeValueError
    "Table name must start with a letter and contain only letters, numbers and underscores")

/-- `TinyDB(path)` / `os.makedirs`-style file creation: ensure the path exists
(an existing file is opened, not truncated). -/
def ensureFile (files : List String) (path : String) : List String :=
  if files.contains path then files else files ++ [path]

/-- `TinyDBStore._add_table_info(table_name, table_type)` at time `now`:
upsert keyed by `name`, writing fresh `created_at` and `updated_at`. -/
def addTableInfo (s : StoreState) (name ty : String) (now : Nat) : StoreState :=
  if s.tableInfo.any fun d => d.name == name then
    { s with tableInfo := s.tableInfo.map fun d =>
        if d.name == name then ⟨name, ty, now, now⟩ else d }
  else
    { s with tableInfo := s.tableInfo ++ [⟨name, ty, now, now⟩] }

/-- `TinyDBStore._get_table_type`: the `type` field of the TableInfo record,
`StoreNotFoundError` when there is none. -/
def getTableType (s : StoreState) (name : String) : Except StoreErr String :=
  match s.tableInfo.find? fun d => d.name == name with
  | none => .error (.storeNotFoundError ("table '" ++ name ++ "' does not exist"))
  | some d => .ok d.type

/-- `TinyDBStore._ensure_table_exists`: `StoreNotFoundError` when no TableInfo
record exists or the backing file is missing. -/
def ensureTableExists (s : StoreState) (name : String) : Except StoreErr Unit :=
  if !(s.tableInfo.any fun d => d.name == name) then
    .error (.storeNotFoundError ("table '" ++ name ++ "' does not exist"))
  else if !(s.files.contains (dbPath s name)) then
    .error (.storeNotFoundError ("Table '" ++ name ++ "' database file does not exist"))
  else
    .ok ()

/-- The shape of table handed back by `get_table`. -/
inductive TableKind where
  | kv
  | kkv
deriving Repr, DecidableEq

/-- A freshly constructed `TinyDBKVTable`/`TinyDBKKVTable`, as the registry
returns it: its class and constructor arguments. -/
structure TableHandle where
  kind : TableKind
  path : String
  tableName : String
deriving Repr, DecidableEq

/-- `TinyDBStore.get_table`: ensure existence, resolve the type, dispatch —
exactly `"kkv"` yields a KKV table, every other type string a KV table. -/
def get_table (s : StoreState) (name : String) : Except StoreErr TableHandle := do
  ensureTableExists s name
  let ty ← getTableType s name
  if ty == "kkv" then .ok ⟨.kkv, dbPath s name, name⟩
  else .ok ⟨.kv, dbPath s name, name⟩

/-- `TinyDBStore.create_kv_table` at time `now`: validate the name, create the
backing file, record/refresh the TableInfo entry via upsert. -/
def create_kv_table (s : StoreState) (name : String) (now : Nat) : Except StoreErr StoreState := do
  validateTableName name
  let s := { s with files := ensureFile s.files (dbPath s name) }
  .ok (addTableInfo s name "kv" now)

/-- `TinyDBStore.create_kkv_table` at time `now`. -/
def create_kkv_table (s : StoreState) (name : String) (now : Nat) : Except StoreErr StoreState := do
  validateTableName name
  let s := { s with files := ensureFile s.files (dbPath s name) }
  .ok (addTableInfo s name "kkv" now)

/-- `Except.isOk`, locally: whether a registry call succeeded. -/
def exOk {ε α : Type} : Except ε α → Bool
  | .ok _ => true
  | .error _ => false

/-- A fresh registry over `"tinydb_store"`, as `TinyDBStore.__init__` leaves
it: no TableInfo records, only the metadata file on disk. -/
def store0 : StoreState :=
  ⟨"tinydb_store", [], ["tinydb_store/.table_info"]⟩

/-- The registry after `create_kv_table("orders")` at time 1. -/
def storeOrders : StoreState :=
  ⟨"tinydb_store", [⟨"orders", "kv", 1, 1⟩],
    ["tinydb_store/.table_info", "tinydb_store/orders.json"]⟩

/-- A registry whose `"t"` record carries a corrupted type string. -/
def storeCorrupt : StoreState :=
  ⟨"tinydb_store", [⟨"t", "corrupted", 1, 1⟩],
    ["tinydb_store/.table_info", "tinydb_store/t.json"]⟩

/-! ## Theorems -/

theorem pyBeq_refl : ∀ v : PyVal, pyBeq v v = true
  | .pyNone => by simp [pyBeq]
  | .pyBool b => by simp [pyBeq]
  | .pyInt n => by simp [pyBeq]
  | .pyStr s => by simp [pyBeq]
  | .pyList [] => by simp [pyBeq]
  | .pyList (a :: as) => by
      simp only [pyBeq, Bool.and_eq_true]
      exact ⟨pyBeq_refl a, pyBeq_refl (.pyList as)⟩
  | .pyDict [] => by simp [pyBeq]
  | .pyDict ((k, v) :: ds) => by
      simp only [pyBeq, Bool.and_eq_true]
      exact ⟨⟨by simp, pyBeq_refl v⟩, pyBeq_refl (.pyDict ds)⟩

theorem pyBeq_str (a b : String) : pyBeq (.pyStr a) (.pyStr b) = (a == b) := by
  simp [pyBeq]

/-- `find?` misses on a list from which every match was filtered out. -/
theorem find?_filter_not {α : Type} (p : α → Bool) (l : List α) :
    (l.filter fun x => !(p x)).find? p = none := by
  rw [List.find?_eq_none]
  intro x hx
  simp only [List.mem_filter, Bool.not_eq_true'] at hx
  simp [hx.2]

theorem find?_of_not_any {α : Type} (p : α → Bool) (l : List α) (h : l.any p = false) :
    l.find? p = none := by
  rw [List.find?_eq_none]
  intro x hx hpx
  rw [Bool.eq_false_iff] at h
  exact h (List.any_eq_true.mpr ⟨x, hx, hpx⟩)

/-- `find?` hits the replacement after an upsert-style map replaces every
match by `r`. -/
theorem find?_map_replace {α : Type} (p : α → Bool) (r : α) (hr : p r = true)
    (l : List α) (h : l.any p = true) :
    (l.map fun x => if p x then r else x).find? p = some r := by
  induction l with
  | nil => simp at h
  | cons a l ih =>
      by_cases ha : p a = true
      · simp only [List.map_cons, if_pos ha]
        exact List.find?_cons_of_pos _ hr
      · simp only [List.any_cons, ha, Bool.false_or] at h
        simp only [List.map_cons, if_neg ha]
        rw [List.find?_cons_of_neg _ (by simp [ha]), ih h]

theorem filter_not_of_not_any {α : Type} (p : α → Bool) (l : List α)
    (h : l.any p = false) : (l.filter fun x => !(p x)) = l := by
  induction l with
  | nil => rfl
  | cons a l ih =>
      simp only [List.any_cons, Bool.or_eq_false_iff] at h
      simp [List.filter_cons, h.1, ih h.2]

theorem filter_length_ne_zero {α : Type} (p : α → Bool) (l : List α) :
    ((l.filter p).length != 0) = l.any p := by
  induction l with
  | nil => rfl
  | cons a l ih =>
      by_cases h : p a = true <;>
        simp [List.filter_cons, h, List.any_cons, ← ih]

/-- A fresh cache binding is what the next lookup for the same key sees. -/
theorem cacheLookup_insert (c : List (PyVal × Nat × PyVal)) (key : PyVal)
    (tv : Nat × PyVal) : cacheLookup (cacheInsert c key tv) key = some tv := by
  unfold cacheLookup cacheInsert
  by_cases h : (c.any fun e => pyBeq e.1 key) = true
  · rw [if_pos h, find?_map_replace (fun e => pyBeq e.1 key) (key, tv) (pyBeq_refl key) _ h]
    rfl
  · rw [if_neg h, List.find?_append,
      find?_of_not_any _ _ (Bool.eq_false_iff.mpr h)]
    simp [List.find?, pyBeq_refl]

theorem cacheLookup_erase (c : List (PyVal × Nat × PyVal)) (key : PyVal) :
    cacheLookup (cacheErase c key) key = none := by
  unfold cacheLookup cacheErase
  rw [find?_filter_not]
  rfl

/-- After `kvUpsert` the table holds exactly one hit for `k`: the new value. -/
theorem kvUpsert_find (docs : List KVDoc) (k : String) (v : PyVal) :
    (kvUpsert docs k v).find? (fun d => d.key == k) = some ⟨k, v⟩ := by
  unfold kvUpsert
  by_cases h : (docs.any fun d => d.key == k) = true
  · rw [if_pos h]
    exact find?_map_replace _ _ (by simp) _ h
  · rw [if_neg h, List.find?_append,
      find?_of_not_any _ _ (Bool.eq_false_iff.mpr h)]
    simp [List.find?]

theorem kvFindDoc_upsert (docs : List KVDoc) (k : String) (v : PyVal) :
    kvFindDoc (kvUpsert docs k v) (.pyStr k) = some ⟨k, v⟩ := by
  unfold kvFindDoc
  have hp : (fun d : KVDoc => pyBeq (.pyStr d.key) (.pyStr k)) =
      fun d : KVDoc => d.key == k := by
    funext d
    exact pyBeq_str d.key k
  rw [hp, kvUpsert_find]

/-- The TableInfo record visible after `_add_table_info` carries the write
time in both timestamp fields. -/
theorem addTableInfo_find (s : StoreState) (name ty : String) (now : Nat) :
    (addTableInfo s name ty now).tableInfo.find? (fun d => d.name == name) =
      some ⟨name, ty, now, now⟩ := by
  unfold addTableInfo
  by_cases h : (s.tableInfo.any fun d => d.name == name) = true
  · rw [if_pos h]
    exact find?_map_replace _ _ (by simp) _ h
  · rw [if_neg h]
    show ((s.tableInfo ++ ([⟨name, ty, now, now⟩] : List TableInfoDoc)).find?
      fun d => d.name == name) = some ⟨name, ty, now, now⟩
    rw [List.find?_append, find?_of_not_any _ _ (Bool.eq_false_iff.mpr h)]
    simp [List.find?]

/-! ## Claim C5 — table-name validation -/

/-- C5 counterexample: `"orders\n"` does not satisfy the claimed name syntax
(its last character is a newline, not a letter/digit/underscore), yet
`create_kv_table("orders\n")` does not fail at all: Python's `re.match` lets
`$` match just before a trailing newline, so `_validate_table_name` accepts
the name and the table is created and registered under it. -/
theorem create_kv_table_trailing_newline_accepted :
    validTableName "orders\n" = true ∧
    create_kv_table store0 "orders\n" 0 =
      .ok ⟨"tinydb_store", [⟨"orders\n", "kv", 0, 0⟩],
        ["tinydb_store/.table_info", "tinydb_store/orders\n.json"]⟩ :=
  ⟨by decide, rfl⟩

/-- C5 (amended): for every table name the code's pattern check rejects —
`re.match` of `^[a-zA-Z][a-zA-Z0-9_]*$`, under which `$` also tolerates one
trailing newline — `create_kv_table` and `create_kkv_table` fail with the
value-error kind (`StoreValueError`, the class
`TinyDBStore._validate_table_name` raises), never with a not-found kind; this
still covers `"1bad"`, `"bad name"` and the reserved `"_table_info"`, but a
valid name plus one trailing newline is accepted, not rejected. -/
theorem create_table_bad_name_value_error (s : StoreState) (name : String) (now : Nat)
    (h : validTableName name = false) :
    create_kv_table s name now = .error (.storeValueError
      "Table name must start with a letter and contain only letters, numbers and underscores") ∧
    create_kkv_table s name now = .error (.storeValueError
      "Table name must start with a letter and contain only letters, numbers and underscores") := by
  unfold create_kv_table create_kkv_table validateTableName
  rw [h]
  exact ⟨rfl, rfl⟩

/-- Witness for the C5 theorem at the three names the claim lists. -/
theorem create_table_bad_name_value_error_witness :
    (validTableName "1bad" = false ∧
      create_kv_table store0 "1bad" 0 = .error (.storeValueError
        "Table name must start with a letter and contain only letters, numbers and underscores")) ∧
    (validTableName "bad name" = false ∧
      create_kv_table store0 "bad name" 0 = .error (.storeValueError
        "Table name must start with a letter and contain only letters, numbers and underscores")) ∧
    (validTableName "_table_info" = false ∧
      create_kkv_table store0 "_table_info" 0 = .error (.storeValueError
        "Table name must start with a letter and contain only letters, numbers and underscores")) :=
  ⟨⟨by decide, (create_table_bad_name_value_error store0 "1bad" 0 (by decide)).1⟩,
    ⟨by decide, (create_table_bad_name_value_error store0 "bad name" 0 (by decide)).1⟩,
    ⟨by decide, (create_table_bad_name_value_error store0 "_table_info" 0 (by decide)).2⟩⟩

/-! ## Claim C1 — re-creating an existing table -/

/-- C1 counterexample: with `"orders"` already registered (the exact state a
first `create_kv_table("orders")` at time 1 produces), a second
`create_kv_table("orders")` does not fail with any error — it returns
successfully, refreshing the existing registration in place. -/
theorem create_kv_table_twice_no_error :
    create_kv_table store0 "orders" 1 = .ok storeOrders ∧
    create_kv_table storeOrders "orders" 2 =
      .ok ⟨"tinydb_store", [⟨"orders", "kv", 2, 2⟩],
        ["tinydb_store/.table_info", "tinydb_store/orders.json"]⟩ :=
  ⟨rfl, rfl⟩

/-- C1 (amended): calling `create_kv_table` or `create_kkv_table` a second
time with the same valid name is not rejected — either call succeeds, and the
existing TableInfo record is silently merged into: the upsert in
`_add_table_info` rewrites the record in place (no duplicate entry, type and
timestamps refreshed), and the backing file set is unchanged apart from
ensuring the file exists. -/
theorem create_table_second_call_upserts (s : StoreState) (name : String) (now : Nat)
    (hname : validTableName name = true)
    (hex : (s.tableInfo.any fun d => d.name == name) = true) :
    create_kv_table s name now =
      .ok ⟨s.dbDir,
        s.tableInfo.map fun d => if d.name == name then ⟨name, "kv", now, now⟩ else d,
        ensureFile s.files (dbPath s name)⟩ ∧
    create_kkv_table s name now =
      .ok ⟨s.dbDir,
        s.tableInfo.map fun d => if d.name == name then ⟨name, "kkv", now, now⟩ else d,
        ensureFile s.files (dbPath s name)⟩ := by
  constructor
  · unfold create_kv_table validateTableName addTableInfo
    rw [hname]
    show Except.ok (if (s.tableInfo.any fun d => d.name == name) = true then _ else _) = _
    rw [if_pos hex]
  · unfold create_kkv_table validateTableName addTableInfo
    rw [hname]
    show Except.ok (if (s.tableInfo.any fun d => d.name == name) = true then _ else _) = _
    rw [if_pos hex]

/-- Witness for the amended C1 theorem: second creations of `"orders"`, as KV
and as KKV. -/
theorem create_table_second_call_upserts_witness :
    validTableName "orders" = true ∧
    (storeOrders.tableInfo.any fun d => d.name == "orders") = true ∧
    create_kv_table storeOrders "orders" 2 =
      .ok ⟨storeOrders.dbDir,
        storeOrders.tableInfo.map fun d =>
          if d.name == "orders" then ⟨"orders", "kv", 2, 2⟩ else d,
        ensureFile storeOrders.files (dbPath storeOrders "orders")⟩ ∧
    create_kkv_table storeOrders "orders" 2 =
      .ok ⟨storeOrders.dbDir,
        storeOrders.tableInfo.map fun d =>
          if d.name == "orders" then ⟨"orders", "kkv", 2, 2⟩ else d,
        ensureFile storeOrders.files (dbPath storeOrders "orders")⟩ :=
  ⟨by decide, by decide,
    (create_table_second_call_upserts storeOrders "orders" 2 (by decide) (by decide)).1,
    (create_table_second_call_upserts storeOrders "orders" 2 (by decide) (by decide)).2⟩

/-! ## Claim C3 — timestamps on write -/

/-- C3 counterexample: writing the `"orders"` TableInfo record at time 1 and
again at time 5 leaves `created_at = 5`: the registry upsert overwrites
`created_at` on every write instead of preserving the first write's value. -/
theorem tableinfo_created_at_overwritten :
    (addTableInfo store0 "orders" "kv" 1).tableInfo = [⟨"orders", "kv", 1, 1⟩] ∧
    (addTableInfo (addTableInfo store0 "orders" "kv" 1) "orders" "kv" 5).tableInfo =
      [⟨"orders", "kv", 5, 5⟩] :=
  ⟨by decide, by decide⟩

/-- C3 (amended): on every registry write the TableInfo record's two timestamp
fields are both set to the current write time — `updated_at` is refreshed on
every write as claimed, but `created_at` is refreshed too, not preserved from
the first write; and the KV table write path manages no timestamps at all: it
upserts the caller's value verbatim. -/
theorem timestamps_refreshed_on_every_write (s : StoreState) (name ty : String)
    (now : Nat) (kv kv2 : KVState) (key value : PyVal)
    (hset : KVTable.set kv key value now = .ok kv2) :
    ((addTableInfo s name ty now).tableInfo.find? (fun d => d.name == name) =
      some ⟨name, ty, now, now⟩) ∧
    kv2.table = kvUpsert kv.table (pyStrOf key) value := by
  refine ⟨addTableInfo_find s name ty now, ?_⟩
  unfold KVTable.set validateKey validateValue at hset
  by_cases hv : isPyDict value = true
  · simp only [isPyStr, if_pos hv, if_pos rfl] at hset
    cases hset
    rfl
  · simp only [isPyStr, if_neg hv, if_pos rfl] at hset
    cases hset

/-- Witness for the amended C3 theorem: a registry write at time 7 and a KV
write of `{"k": {}}` at time 7. -/
theorem timestamps_refreshed_on_every_write_witness :
    ((addTableInfo store0 "orders" "kv" 7).tableInfo.find? (fun d => d.name == "orders") =
      some ⟨"orders", "kv", 7, 7⟩) ∧
    (⟨[⟨"k", .pyDict []⟩], [(.pyStr "k", 7, .pyDict [])]⟩ : KVState).table =
      kvUpsert ([] : List KVDoc) (pyStrOf (.pyStr "k")) (.pyDict []) :=
  timestamps_refreshed_on_every_write store0 "orders" "kv" 7 ⟨[], []⟩ _ (.pyStr "k")
    (.pyDict []) rfl

/-- `get_table` when no TableInfo record matches the name. -/
theorem get_table_no_info (s : StoreState) (name : String)
    (h1 : (s.tableInfo.any fun d => d.name == name) = false) :
    get_table s name =
      .error (.storeNotFoundError ("table '" ++ name ++ "' does not exist")) := by
  unfold get_table ensureTableExists
  rw [h1]
  rfl

/-- `get_table` when the record exists but the backing file is missing. -/
theorem get_table_no_file (s : StoreState) (name : String)
    (h1 : (s.tableInfo.any fun d => d.name == name) = true)
    (h2 : s.files.contains (dbPath s name) = false) :
    get_table s name =
      .error (.storeNotFoundError
        ("Table '" ++ name ++ "' database file does not exist")) := by
  unfold get_table ensureTableExists
  rw [h1, h2]
  rfl

/-- `get_table` when the record exists and the backing file is on disk. -/
theorem get_table_found (s : StoreState) (name : String) (d : TableInfoDoc)
    (hfd : s.tableInfo.find? (fun x => x.name == name) = some d)
    (hfile : s.files.contains (dbPath s name) = true) :
    get_table s name =
      .ok ⟨if d.type == "kkv" then .kkv else .kv, dbPath s name, name⟩ := by
  have hpd := List.find?_some hfd
  have hmem : d ∈ s.tableInfo := List.mem_of_find?_eq_some hfd
  have hany : (s.tableInfo.any fun x => x.name == name) = true :=
    List.any_eq_true.mpr ⟨d, hmem, hpd⟩
  unfold get_table ensureTableExists getTableType
  rw [hany, hfile, hfd]
  show (if d.type == "kkv" then Except.ok (⟨.kkv, dbPath s name, name⟩ : TableHandle)
      else Except.ok ⟨.kv, dbPath s name, name⟩) =
    Except.ok ⟨if d.type == "kkv" then .kkv else .kv, dbPath s name, name⟩
  by_cases ht : (d.type == "kkv") = true
  · rw [if_pos ht, if_pos ht]
  · rw [if_neg ht, if_neg ht]

/-! ## Claim C10 — type dispatch in `get_table` -/

/-- C10: when the TableInfo record is present and the backing file exists,
`get_table` raises no error and dispatches purely on the recorded type string:
exactly `"kkv"` constructs a KKV table, and every other string — `"kv"`,
unknown or corrupted values alike — constructs a KV table. -/
theorem get_table_dispatch (s : StoreState) (name : String) (d : TableInfoDoc)
    (hfd : s.tableInfo.find? (fun x => x.name == name) = some d)
    (hfile : s.files.contains (dbPath s name) = true) :
    get_table s name =
      .ok ⟨if d.type == "kkv" then .kkv else .kv, dbPath s name, name⟩ :=
  get_table_found s name d hfd hfile

/-- Witness for the C10 theorem: a record whose type field reads
`"corrupted"` still yields a KV handle. -/
theorem get_table_dispatch_witness :
    get_table storeCorrupt "t" = .ok ⟨.kv, "tinydb_store/t.json", "t"⟩ := by
  have h := get_table_dispatch storeCorrupt "t" ⟨"t", "corrupted", 1, 1⟩
    (by decide) (by decide)
  rw [h]
  rfl

/-! ## Claim C8 — `get_table` not-found behaviour -/

/-- C8: `get_table` fails with `StoreNotFoundError` exactly when no TableInfo
record exists for the name or the table's backing file is missing; it fails at
all exactly under the same condition (so every failure is of the not-found
kind), and — the result being `Except` — no table handle is constructed or
returned in the error case. -/
theorem get_table_not_found_iff (s : StoreState) (name : String) :
    ((∃ msg, get_table s name = .error (.storeNotFoundError msg)) ↔
      ((s.tableInfo.any fun d => d.name == name) = false ∨
        s.files.contains (dbPath s name) = false)) ∧
    ((exOk (get_table s name) = false) ↔
      ((s.tableInfo.any fun d => d.name == name) = false ∨
        s.files.contains (dbPath s name) = false)) := by
  by_cases h1 : (s.tableInfo.any fun d => d.name == name) = true
  · by_cases h2 : s.files.contains (dbPath s name) = true
    · cases hfd : s.tableInfo.find? fun x => x.name == name with
      | none =>
          rw [List.find?_eq_none] at hfd
          obtain ⟨x, hx, hpx⟩ := List.any_eq_true.mp h1
          exact absurd hpx (hfd x hx)
      | some d =>
          have h2m : dbPath s name ∈ s.files := by simpa using h2
          rw [get_table_found s name d hfd h2]
          simp [h1, h2m, exOk]
    · have h2m : dbPath s name ∉ s.files := by simpa using h2
      rw [get_table_no_file s name h1 (Bool.eq_false_iff.mpr h2)]
      simp [h1, h2m, exOk]
  · rw [get_table_no_info s name (Bool.eq_false_iff.mpr h1)]
    simp [Bool.eq_false_iff.mpr h1, exOk]

/-! ## Claim C2 — key-type validation on `set` -/

/-- C2: the key-type check cannot fire.  `TinyDBKVTable.set` calls
`self._validate_key(str(key))` — the `isinstance(key, str)` test is applied to
the *already coerced* string — so a non-string key such as the integer `42`
raises no key-type error at all: the write proceeds and mutates the backing
table under the coerced key `"42"` (the same slip is in `TinyDBKKVTable.set`).
This contradicts the claim and the interface's documented contract that a
non-string key raises the key error before any mutation. -/
theorem kv_set_int_key_no_error :
    KVTable.set ⟨[], []⟩ (.pyInt 42) (.pyDict []) 7 =
      .ok ⟨[⟨"42", .pyDict []⟩], [(.pyInt 42, 7, .pyDict [])]⟩ ∧
    KKVTable.set ⟨[]⟩ (.pyInt 42) (.pyInt 43) (.pyDict []) =
      .ok ⟨[⟨"42", "43", .pyDict []⟩]⟩ :=
  ⟨rfl, rfl⟩

/-! ## Claim C4 — value-type validation on `set` -/

/-- C4 counterexample: a value that *is* a dict but whose `"data"` field is a
scalar is accepted — `set` succeeds and writes it.  The code validates only
`isinstance(value, dict)`; it never inspects the `data` field the claim (and
spec) talk about. -/
theorem kv_set_accepts_scalar_data_field :
    KVTable.set ⟨[], []⟩ (.pyStr "k") (.pyDict [("data", .pyInt 5)]) 0 =
      .ok ⟨[⟨"k", .pyDict [("data", .pyInt 5)]⟩],
        [(.pyStr "k", 0, .pyDict [("data", .pyInt 5)])]⟩ :=
  rfl

/-- C4 (amended): KV-table `set` and KKV-table `set` raise the value-type
error (`StoreValueError`) exactly when the supplied value itself is not a
mapping (`dict`) — e.g. a scalar or a list — and they do so at the call
boundary, before any write: the error branch returns without touching the
backing store.  The `data` field inside a dict value is not inspected. -/
theorem set_value_type_error_iff (kv : KVState) (k2 : KKVState)
    (key pkey skey value : PyVal) (now : Nat) :
    (KVTable.set kv key value now =
        .error (.storeValueError "Value must be dict type") ↔
      isPyDict value = false) ∧
    (KKVTable.set k2 pkey skey value =
        .error (.storeValueError "Value must be dict type") ↔
      isPyDict value = false) := by
  unfold KVTable.set KKVTable.set validateKey validateValue
  by_cases hv : isPyDict value = true
  · simp only [isPyStr, if_pos rfl, if_pos hv]
    constructor <;> exact ⟨fun h => (by cases h), fun h => (by simp [hv] at h)⟩
  · simp only [isPyStr, if_pos rfl, if_neg hv]
    constructor <;>
      exact ⟨fun _ => Bool.eq_false_iff.mpr hv, fun _ => rfl⟩

/-- `KVTable.get` when the cache holds an entry for the key. -/
theorem kv_get_step (s : KVState) (key v : PyVal) (t now : Nat)
    (hc : cacheLookup s.cache key = some (t, v)) :
    KVTable.get s key now =
      if now - t < cacheTtl then (s, some v)
      else KVTable.getFromDb ⟨s.table, cacheErase s.cache key⟩ key now := by
  unfold KVTable.get
  rw [hc]

/-- `KVTable.get` when the cache holds no entry for the key. -/
theorem kv_get_step_none (s : KVState) (key : PyVal)
    (hc : cacheLookup s.cache key = none) (now : Nat) :
    KVTable.get s key now = KVTable.getFromDb s key now := by
  unfold KVTable.get
  rw [hc]

theorem kv_getFromDb_found (s : KVState) (key : PyVal) (d : KVDoc) (now : Nat)
    (h : kvFindDoc s.table key = some d) :
    KVTable.getFromDb s key now =
      (⟨s.table, cacheInsert s.cache key (now, d.value)⟩, some d.value) := by
  unfold KVTable.getFromDb
  rw [h]

theorem kv_getFromDb_missing (s : KVState) (key : PyVal)
    (h : kvFindDoc s.table key = none) (now : Nat) :
    KVTable.getFromDb s key now = (s, none) := by
  unfold KVTable.getFromDb
  rw [h]

/-! ## Claim C6 — cache TTL discipline in `get` -/

/-- C6: `TinyDBKVTable.get` honors a cache entry only when `now - fetch_time`
is strictly below the 300-second TTL, returning the cached value with the
state untouched; when the entry is TTL-old or older it is evicted and the
read falls through to the Document Engine query.  Every cache entry is
installed (by `set` or a previous `get`) carrying its own write/fetch time,
so no value older than TTL relative to the last write or fetch of that key by
this instance is ever served from the cache. -/
theorem kv_get_cache_ttl (s : KVState) (key v : PyVal) (t now : Nat)
    (hc : cacheLookup s.cache key = some (t, v)) :
    (now - t < cacheTtl → KVTable.get s key now = (s, some v)) ∧
    (cacheTtl ≤ now - t →
      KVTable.get s key now =
        KVTable.getFromDb ⟨s.table, cacheErase s.cache key⟩ key now) := by
  refine ⟨fun h => ?_, fun h => ?_⟩
  · rw [kv_get_step s key v t now hc, if_pos h]
  · rw [kv_get_step s key v t now hc, if_neg (by omega)]

/-- Witness for the C6 theorem: an entry fetched at time 10 is served at time
100 (90 seconds old) and refused — with fall-through to the engine — at time
400 (390 seconds old). -/
theorem kv_get_cache_ttl_witness :
    KVTable.get ⟨[], [(.pyStr "k", 10, .pyDict [])]⟩ (.pyStr "k") 100 =
      (⟨[], [(.pyStr "k", 10, .pyDict [])]⟩, some (.pyDict [])) ∧
    KVTable.get ⟨[], [(.pyStr "k", 10, .pyDict [])]⟩ (.pyStr "k") 400 =
      KVTable.getFromDb
        ⟨[], cacheErase [(.pyStr "k", 10, .pyDict [])] (.pyStr "k")⟩ (.pyStr "k") 400 :=
  ⟨(kv_get_cache_ttl ⟨[], [(.pyStr "k", 10, .pyDict [])]⟩ (.pyStr "k") (.pyDict []) 10 100
      (cacheLookup_insert [] (.pyStr "k") (10, .pyDict []))).1 (by decide),
    (kv_get_cache_ttl ⟨[], [(.pyStr "k", 10, .pyDict [])]⟩ (.pyStr "k") (.pyDict []) 10 400
      (cacheLookup_insert [] (.pyStr "k") (10, .pyDict []))).2 (by decide)⟩

/-! ## Claim C7 — set/get round trip -/

/-- C7: for every valid key (a string) and valid value (a dict, or `set` would
have failed), `set(key, value)` followed by `get(key)` on the same instance
returns exactly the written value — whether the read is served from the fresh
cache entry or, after TTL expiry, from the upserted document in the backing
table — hence a value whose `data` equals the written `data`. -/
theorem kv_set_get_roundtrip (s s1 : KVState) (k : String) (value : PyVal)
    (t now : Nat) (hset : KVTable.set s (.pyStr k) value t = .ok s1) :
    (KVTable.get s1 (.pyStr k) now).2 = some value := by
  unfold KVTable.set validateKey validateValue at hset
  by_cases hv : isPyDict value = true
  · simp only [isPyStr, if_pos rfl, if_pos hv] at hset
    cases hset
    have hcache : cacheLookup (cacheInsert s.cache (.pyStr k) (t, value)) (.pyStr k) =
        some (t, value) := cacheLookup_insert _ _ _
    rw [kv_get_step _ _ value t now hcache]
    by_cases hnow : now - t < cacheTtl
    · rw [if_pos hnow]
    · rw [if_neg hnow,
        kv_getFromDb_found _ _ ⟨k, value⟩ now (kvFindDoc_upsert s.table k value)]
  · simp only [isPyStr, if_pos rfl, if_neg hv] at hset
    cases hset

/-- Witness for the C7 theorem: write `{"a": 1}` under `"k"` at time 0, read
it back at time 5. -/
theorem kv_set_get_roundtrip_witness :
    (KVTable.get ⟨[⟨"k", .pyDict [("a", .pyInt 1)]⟩],
        [(.pyStr "k", 0, .pyDict [("a", .pyInt 1)])]⟩ (.pyStr "k") 5).2 =
      some (.pyDict [("a", .pyInt 1)]) :=
  kv_set_get_roundtrip ⟨[], []⟩ _ "k" (.pyDict [("a", .pyInt 1)]) 0 5 rfl

/-! ## Claim C9 — delete semantics -/

/-- C9: KV `delete(key)` (and KKV `delete(pkey, skey)`) returns true exactly
when a matching document existed - and it removes every matching document, so
a subsequent `get` on the same instance returns absent (the cache entry is
evicted and the table query misses); on a non-existent key it returns false
and the backing table is left unchanged. -/
theorem kv_kkv_delete_semantics (s : KVState) (k2 : KKVState)
    (key pkey skey : PyVal) (now : Nat) :
    ((KVTable.delete s key).2 = (s.table.any fun d => pyBeq (.pyStr d.key) key)) ∧
    ((KVTable.get (KVTable.delete s key).1 key now).2 = none) ∧
    ((s.table.any fun d => pyBeq (.pyStr d.key) key) = false →
      (KVTable.delete s key).1.table = s.table) ∧
    ((KKVTable.delete k2 pkey skey).2 =
      (k2.table.any fun d => d.key1 == pyStrOf pkey && d.key2 == pyStrOf skey)) ∧
    ((k2.table.any fun d => d.key1 == pyStrOf pkey && d.key2 == pyStrOf skey) = false →
      (KKVTable.delete k2 pkey skey).1 = k2) ∧
    (KKVTable.get (KKVTable.delete k2 pkey skey).1 pkey skey = none) := by
  refine ⟨?_, ?_, fun h => ?_, ?_, fun h => ?_, ?_⟩
  · exact filter_length_ne_zero _ _
  · have hc : cacheLookup ((KVTable.delete s key).1).cache key = none :=
      cacheLookup_erase s.cache key
    have hdb : kvFindDoc ((KVTable.delete s key).1).table key = none :=
      find?_filter_not _ _
    rw [kv_get_step_none _ _ hc now, kv_getFromDb_missing _ _ hdb now]
  · exact filter_not_of_not_any _ _ h
  · exact filter_length_ne_zero _ _
  · exact congrArg KKVState.mk (filter_not_of_not_any _ _ h)
  · show ((k2.table.filter fun d =>
        !(d.key1 == pyStrOf pkey && d.key2 == pyStrOf skey)).find?
          fun d => d.key1 == pyStrOf pkey && d.key2 == pyStrOf skey).map KKVDoc.value =
      none
    rw [find?_filter_not]
    rfl

/-- Witness for the C9 theorem: deleting from empty tables returns with the
tables unchanged. -/
theorem kv_kkv_delete_semantics_witness :
    ((KVTable.delete ⟨[], []⟩ (.pyStr "x")).1.table = ([] : List KVDoc)) ∧
    ((KKVTable.delete ⟨[]⟩ (.pyStr "p") (.pyStr "s")).1 = (⟨[]⟩ : KKVState)) :=
  ⟨(kv_kkv_delete_semantics ⟨[], []⟩ ⟨[]⟩ (.pyStr "x") (.pyStr "p") (.pyStr "s")
      0).2.2.1 rfl,
    (kv_kkv_delete_semantics ⟨[], []⟩ ⟨[]⟩ (.pyStr "x") (.pyStr "p") (.pyStr "s")
      0).2.2.2.2.1 rfl⟩

end Funtable
